import Mathlib

set_option maxRecDepth 4000

/-!
Verification of `deepseek_backend.py` (countries repository): a shallow
embedding of the fact-parsing cascade, the knowledge base and the two HTTP
handlers, plus theorems settling the spec's claims about them.

The Python regular-expression calls are modelled by a small backtracking
matcher (`reM`) with Python `re` priority semantics: greedy quantifiers
prefer the longer match, lazy quantifiers the shorter, alternation is
ordered, lookahead is a zero-width atomic assertion, and `re.findall`
scans left to right resuming at each match end.  The flags used by the
source, `re.MULTILINE ||| re.DOTALL`, are baked in: `dot` matches any
character including newline, `eos` models `$` and succeeds at end of
input or before any newline.  `\d`, `\s`, `str.strip`, `str.lower` are
modelled on their ASCII behaviour, which coincides with Python on every
string considered here.
-/

namespace CountryFacts

/-- A (title, content) fact record, the element shape of the `facts` lists
built by `parse_facts_from_response` and the knowledge base. -/
structure Fact where
  title : String
  content : String
deriving DecidableEq

/-- Python `\s` (and `str.strip`): ASCII whitespace. -/
def isPySpace (c : Char) : Bool :=
  c = ' ' || c = '\t' || c = '\n' || c = '\r' || c = '\x0b' || c = '\x0c'

/-- Python `\d`, ASCII digits. -/
def isPyDigit (c : Char) : Bool :=
  '0' ≤ c && c ≤ '9'

/-- `l` with leading and trailing whitespace removed (Python `str.strip`). -/
def stripChars (l : List Char) : List Char :=
  ((l.dropWhile isPySpace).reverse.dropWhile isPySpace).reverse

/-- Python `str.strip()`. -/
def pyStrip (s : String) : String :=
  String.mk (stripChars s.toList)

/-- Python `str.lower()` (ASCII). -/
def pyLower (s : String) : String :=
  String.mk (s.toList.map Char.toLower)

/-- Does `needle` start `hay`? -/
def listIsPre : List Char → List Char → Bool
  | [], _ => true
  | _ :: _, [] => false
  | a :: as, b :: bs => a = b && listIsPre as bs

/-- Python `needle in hay` on strings: substring containment. -/
def listContains (hay needle : List Char) : Bool :=
  listIsPre needle hay ||
    match hay with
    | [] => false
    | _ :: rest => listContains rest needle

/-- Python `needle in hay` on `String`. -/
def strContains (hay needle : String) : Bool :=
  listContains hay.toList needle.toList

/-- Abstract syntax for the regex subset the source uses.  `star true` is
greedy `*`, `star false` is lazy `*?`; `X+` and `X+?` are rendered as
`seq X (star _ X)`; `X?` as `alt X eps`. -/
inductive RE where
  | eps
  | char (c : Char)
  | cls (neg : Bool) (cs : List Char)
  | digitCls
  | spaceCls
  | dot
  | eos
  | seq (a b : RE)
  | alt (a b : RE)
  | star (greedy : Bool) (a : RE)
  | group (n : Nat) (a : RE)
  | look (a : RE)

/-- Captured groups: most recent capture for a number shadows older ones. -/
def Groups := List (Nat × List Char)

def setGroup (g : Groups) (n : Nat) (v : List Char) : Groups :=
  (n, v) :: (g : List (Nat × List Char))

/-- The capture of group `n` (empty when the group never matched, as in
Python `findall`, which fills `''` for an unmatched group). -/
def getGroup (g : Groups) (n : Nat) : List Char :=
  match g with
  | [] => []
  | (m, v) :: rest => if m = n then v else getGroup rest n

/-- The backtracking matcher.  `reM fuel r t g k` matches `r` against a
prefix of `t` with captured groups `g` and continuation `k`; the first
success in Python priority order wins.  Fuel decreases at every node, so
the recursion is structural and kernel-reducible; any fuel of at least
`t.length + the pattern depth` is enough for the patterns considered. -/
def reM : Nat → RE → List Char → Groups →
    (List Char → Groups → Option (Groups × List Char)) →
    Option (Groups × List Char)
  | 0, _, _, _, _ => none
  | n + 1, r, t, g, k =>
    match r with
    | .eps => k t g
    | .char c =>
      match t with
      | [] => none
      | d :: rest => if d = c then k rest g else none
    | .cls neg cs =>
      match t with
      | [] => none
      | d :: rest =>
        if (if neg then !(cs.contains d) else cs.contains d) then k rest g else none
    | .digitCls =>
      match t with
      | [] => none
      | d :: rest => if isPyDigit d then k rest g else none
    | .spaceCls =>
      match t with
      | [] => none
      | d :: rest => if isPySpace d then k rest g else none
    | .dot =>
      match t with
      | [] => none
      | _ :: rest => k rest g
    | .eos =>
      if t.isEmpty || t.head? = some '\n' then k t g else none
    | .seq a b => reM n a t g (fun t1 g1 => reM n b t1 g1 k)
    | .alt a b =>
      match reM n a t g k with
      | some res => some res
      | none => reM n b t g k
    | .star greedy a =>
      if greedy then
        match reM n a t g (fun t1 g1 =>
            if t1.length = t.length then none
            else reM n (.star greedy a) t1 g1 k) with
        | some res => some res
        | none => k t g
      else
        match k t g with
        | some res => some res
        | none =>
          reM n a t g (fun t1 g1 =>
            if t1.length = t.length then none
            else reM n (.star greedy a) t1 g1 k)
    | .group m a =>
      reM n a t g (fun t1 g1 =>
        k t1 (setGroup g1 m (t.take (t.length - t1.length))))
    | .look a =>
      match reM n a t g (fun t1 g1 => some (g1, t1)) with
      | some (g1, _) => k t g1
      | none => none

/-- Try a match of `r` at the start of `t`; on success return the groups
and the rest of the input after the match. -/
def reMatchAt (r : RE) (t : List Char) : Option (Groups × List Char) :=
  reM (t.length + 100) r t [] (fun t1 g1 => some (g1, t1))

/-- `re.findall` scanning: try each position left to right, resume after
each match (advancing one character past an empty match). -/
def reFindAllAux : Nat → RE → List Char → List Groups
  | 0, _, _ => []
  | n + 1, r, t =>
    match reMatchAt r t with
    | some (g, rest) =>
      if rest.length < t.length then g :: reFindAllAux n r rest
      else
        g ::
          (match t with
           | [] => []
           | _ :: tl => reFindAllAux n r tl)
    | none =>
      match t with
      | [] => []
      | _ :: tl => reFindAllAux n r tl

/-- The list of group captures of every match of `r` in `t`, in order. -/
def reFindAll (r : RE) (t : List Char) : List Groups :=
  reFindAllAux (t.length + 1) r t

/-- The pattern of deepseek_backend.py line 51,
`(\d+)\.\s*([^:\n]+?)[:.]?\s*(.+?)(?=\d+\.|$)`, flags MULTILINE and DOTALL. -/
def numbered_pattern : RE :=
  .seq (.group 1 (.seq .digitCls (.star true .digitCls)))
  (.seq (.char '.')
  (.seq (.star true .spaceCls)
  (.seq (.group 2 (.seq (.cls true [':', '\n']) (.star false (.cls true [':', '\n']))))
  (.seq (.alt (.cls false [':', '.']) .eps)
  (.seq (.star true .spaceCls)
  (.seq (.group 3 (.seq .dot (.star false .dot)))
        (.look (.alt (.seq .digitCls (.seq (.star true .digitCls) (.char '.'))) .eos))))))))

/-- The pattern of deepseek_backend.py line 63,
`[•\-\*]\s*([^:\n]+?)[:.]?\s*(.+?)(?=[•\-\*]|$)`, flags MULTILINE and DOTALL. -/
def bullet_pattern : RE :=
  .seq (.cls false ['•', '-', '*'])
  (.seq (.star true .spaceCls)
  (.seq (.group 1 (.seq (.cls true [':', '\n']) (.star false (.cls true [':', '\n']))))
  (.seq (.alt (.cls false [':', '.']) .eps)
  (.seq (.star true .spaceCls)
  (.seq (.group 2 (.seq .dot (.star false .dot)))
        (.look (.alt (.cls false ['•', '-', '*']) .eos)))))))

/-- `re.findall(numbered_pattern, text, re.MULTILINE ||| re.DOTALL)`:
(number, title, content) string triples. -/
def numberedMatches (text : String) : List (String × String × String) :=
  (reFindAll numbered_pattern text.toList).map
    (fun g => (String.mk (getGroup g 1), String.mk (getGroup g 2), String.mk (getGroup g 3)))

/-- `re.findall(bullet_pattern, text, re.MULTILINE ||| re.DOTALL)`:
(title, content) string pairs. -/
def bulletMatches (text : String) : List (String × String) :=
  (reFindAll bullet_pattern text.toList).map
    (fun g => (String.mk (getGroup g 1), String.mk (getGroup g 2)))

/-- A sentence terminator of `re.split(r'[.!?]+', text)`. -/
def isSentenceSep (c : Char) : Bool :=
  c = '.' || c = '!' || c = '?'

/-- `re.split(r'[.!?]+', text)`: pieces between maximal terminator runs,
with empty pieces at the boundaries exactly as Python produces them. -/
def splitSentences : List Char → List (List Char)
  | [] => [[]]
  | c :: rest =>
    if isSentenceSep c then
      if (rest.head?.map isSentenceSep).getD false then splitSentences rest
      else [] :: splitSentences rest
    else
      match splitSentences rest with
      | [] => [[c]]
      | p :: ps => (c :: p) :: ps

/-- Python `content.replace('\n', ' ')`. -/
def replaceNewlines (s : String) : String :=
  String.mk (s.toList.map (fun c => if c = '\n' then ' ' else c))

/-- Python `sentence.endswith('.')`. -/
def endsWithPeriod (s : String) : Bool :=
  match s.toList.getLast? with
  | some c => c = '.'
  | none => false

/-- The numbered-list step of `parse_facts_from_response` (lines 54-60):
up to three matches, title stripped, content stripped and newlines
collapsed to spaces. -/
def numbered_step (text : String) : List Fact :=
  ((numberedMatches text).take 3).map
    (fun m => { title := pyStrip m.2.1, content := replaceNewlines (pyStrip m.2.2) })

/-- The bullet-list step of `parse_facts_from_response` (lines 62-72). -/
def bullet_step (text : String) : List Fact :=
  ((bulletMatches text).take 3).map
    (fun m => { title := pyStrip m.1, content := replaceNewlines (pyStrip m.2) })

/-- The sentence-split fallback of `parse_facts_from_response` (lines
74-80): split on `[.!?]+`, keep stripped fragments of length strictly
greater than 20, take up to three, synthetic 1-indexed titles, ensure a
trailing period. -/
def sentence_step (text : String) : List Fact :=
  let sentences :=
    (((splitSentences text.toList).map (fun l => String.mk (stripChars l))).filter
      (fun s => 20 < s.length))
  (sentences.take 3).enum.map
    (fun p =>
      { title := "Interesting Fact " ++ toString (p.1 + 1),
        content := if endsWithPeriod p.2 then p.2 else p.2 ++ "." })

/-- The padding/truncation step of `parse_facts_from_response` (lines
82-89): append filler facts until three are present, then keep three. -/
def pad_to_three (country_name : String) (facts : List Fact) : List Fact :=
  (facts ++
      List.replicate (3 - facts.length)
        ({ title := "About " ++ country_name,
           content := country_name ++ " has a rich history and culture worth exploring." } : Fact)).take 3

/-- Shallow embedding of `parse_facts_from_response` (lines 44-89): the
numbered step if it has any match, otherwise the bullet step if it has
any match, otherwise the sentence fallback; then padding/truncation. -/
def parse_facts_from_response (text country_name : String) : List Fact :=
  pad_to_three country_name
    (match numberedMatches text with
     | _ :: _ => numbered_step text
     | [] =>
       match bulletMatches text with
       | _ :: _ => bullet_step text
       | [] => sentence_step text)

/-- Lookup in an association list, modelling a Python dict with the given
(unique) keys. -/
def alookup {α : Type} : List (String × α) → String → Option α
  | [], _ => none
  | (k, v) :: rest, key => if k = key then some v else alookup rest key

/-- The curated `country_facts` table of `generate_intelligent_facts`
(deepseek_backend.py lines 127-178), transcribed verbatim. -/
def curated_country_facts : List (String × List Fact) := [
  ("japan", [
    ⟨"Vending Machine Paradise", "Japan has over 5 million vending machines, selling everything from hot coffee to fresh flowers - that's one vending machine for every 25 people!"⟩,
    ⟨"Ancient Meets Modern", "Japan has the world's oldest continuous monarchy, with Emperor Naruhito being the 126th emperor in an unbroken line dating back over 2,600 years."⟩,
    ⟨"Island Nation Complexity", "Japan consists of 6,852 islands, though only about 430 are inhabited, making it one of the most geographically complex countries in the world."⟩]),
  ("france", [
    ⟨"Cheese Champion", "France produces over 350 types of cheese, and it's said that you could eat a different French cheese every day for an entire year!"⟩,
    ⟨"Most Visited Country", "France is the world's most visited country, welcoming over 89 million tourists annually - more than its entire population!"⟩,
    ⟨"Time Zone Record", "France spans 12 different time zones, more than any other country, due to its overseas territories around the globe."⟩]),
  ("brazil", [
    ⟨"Amazon Powerhouse", "Brazil contains about 60% of the Amazon rainforest, which produces approximately 20% of the world's oxygen."⟩,
    ⟨"Coffee King", "Brazil has been the world's largest coffee producer for over 150 years, producing about one-third of all coffee globally."⟩,
    ⟨"Carnival Capital", "Rio de Janeiro's Carnival is the world's largest carnival celebration, attracting over 2 million people daily during the festival."⟩]),
  ("germany", [
    ⟨"Engineering Excellence", "Germany is home to the Autobahn highway system, parts of which have no speed limits, and the country produces some of the world's most advanced automobiles."⟩,
    ⟨"Festival Culture", "Germany hosts Oktoberfest, the world's largest beer festival, where over 6 million people consume around 7 million liters of beer annually."⟩,
    ⟨"Innovation Hub", "Germany has produced more Nobel Prize winners in science than any other country except the United States, with over 100 laureates."⟩]),
  ("italy", [
    ⟨"Pasta Perfection", "Italy has over 350 different pasta shapes, each designed to pair perfectly with specific sauces and regional ingredients."⟩,
    ⟨"UNESCO Champion", "Italy has the most UNESCO World Heritage Sites of any country with 58 sites, showcasing its incredible historical and cultural wealth."⟩,
    ⟨"Volcano Land", "Italy has three active volcanoes: Mount Etna, Stromboli, and Mount Vesuvius, with Mount Etna being Europe's most active volcano."⟩]),
  ("spain", [
    ⟨"Flamenco Heritage", "Spain is the birthplace of flamenco, a passionate art form combining guitar, singing, dancing, and handclaps that originated in Andalusia."⟩,
    ⟨"Architectural Wonders", "Spain features incredible architecture from the Sagrada Família (still under construction after 140+ years) to the Alhambra's intricate Islamic art."⟩,
    ⟨"Siesta Tradition", "The Spanish siesta tradition exists because Spain is geographically positioned to have the same time zone as Central Europe, making midday extremely hot."⟩]),
  ("canada", [
    ⟨"Freshwater Giant", "Canada has more freshwater than any other country, containing about 20% of the world's fresh water in its lakes and rivers."⟩,
    ⟨"Maple Syrup Monopoly", "Canada produces 71% of the world's maple syrup, with Quebec alone accounting for 90% of Canada's production."⟩,
    ⟨"Coastline Champion", "Canada has the world's longest coastline at 202,080 kilometers, longer than the coastlines of all other countries combined!"⟩]),
  ("australia", [
    ⟨"Unique Wildlife", "Australia is home to more than 80% of animals and plants that exist nowhere else on Earth, including kangaroos, koalas, and the platypus."⟩,
    ⟨"Massive Country", "Australia is the 6th largest country by land area but has a population of only 26 million people, making it one of the least densely populated countries."⟩,
    ⟨"Great Barrier Reef", "The Great Barrier Reef is the world's largest coral reef system and can be seen from space - it's larger than the Great Wall of China!"⟩]),
  ("egypt", [
    ⟨"Ancient Wonder", "The Great Pyramid of Giza was the tallest man-made structure in the world for over 3,800 years until the Eiffel Tower was built."⟩,
    ⟨"Nile Lifeline", "The Nile River, flowing through Egypt, is the longest river in the world at 4,135 miles and has been Egypt's lifeline for over 5,000 years."⟩,
    ⟨"Hieroglyphic Legacy", "Ancient Egyptians used over 700 different hieroglyphic symbols, and the Rosetta Stone was the key to deciphering this ancient writing system."⟩]),
  ("india", [
    ⟨"Language Diversity", "India recognizes 22 official languages and has over 1,600 spoken languages, making it one of the most linguistically diverse countries on Earth."⟩,
    ⟨"Spice Origin", "India is known as the 'Spice Bowl of the World' and produces 70% of the world's spices, including black pepper, cardamom, and turmeric."⟩,
    ⟨"Chess Birthplace", "Chess was invented in India around the 6th century AD, originally called 'Chaturanga,' meaning 'four divisions of the army.'"⟩])]

/-- The `generic_patterns` list of `generate_intelligent_facts`
(lines 187-200): three templated facts for a country not in the table. -/
def generic_patterns (country_name : String) : List Fact := [
  ⟨"Geographic Uniqueness", country_name ++ " has distinctive geographical features that have shaped its culture, climate, and way of life throughout history."⟩,
  ⟨"Cultural Heritage", "The people of " ++ country_name ++ " have developed unique traditions, languages, and customs that reflect their rich historical heritage and regional influences."⟩,
  ⟨"Global Contribution", country_name ++ " has made significant contributions to world culture, science, art, or international relations that continue to influence global society today."⟩]

/-- Shallow embedding of `generate_intelligent_facts` (lines 122-202):
lower-case the name, return the curated facts when the table has the key,
otherwise the generic templates; the label is always the same. -/
def generate_intelligent_facts (country_name : String) : List Fact × String :=
  match alookup curated_country_facts (pyLower country_name) with
  | some fs => (fs, "Enhanced Knowledge Base")
  | none => (generic_patterns country_name, "Enhanced Knowledge Base")

/-- `try_creative_generation` (lines 204-217) wraps
`generate_intelligent_facts` in a try/except; nothing in the pure model
can raise, so it is the identity wrapper. -/
def try_creative_generation (country_name : String) : List Fact × String :=
  generate_intelligent_facts country_name

/-- A `/generate-facts` response: HTTP 200 with facts, model label and
status, or an error status code with a message. -/
inductive GenResp where
  | ok (facts : List Fact) (model_used status : String)
  | err (code : Nat) (msg : String)
deriving DecidableEq

/-- The hard-coded fallback facts of the `/generate-facts` handler
(lines 244-257). -/
def fallback_facts (country_name : String) : List Fact := [
  ⟨"Geographic Location", country_name ++ " is a unique nation with its own distinct geography and borders."⟩,
  ⟨"Cultural Heritage", country_name ++ " has a rich cultural heritage that reflects its history and people."⟩,
  ⟨"Modern Significance", country_name ++ " continues to play an important role in today's global community."⟩]

/-- The `/generate-facts` handler (lines 219-266), parameterized by the
generation strategy so that non-invocation on invalid input is provable
for every strategy.  `rawCountry` is `data.get('country', '')`, so a
missing field arrives as the empty string. -/
def generate_facts_handler (strategy : String → List Fact × String)
    (rawCountry : String) : GenResp :=
  let country_name := pyStrip rawCountry
  if country_name = "" then .err 400 "Country name is required"
  else if 0 < (strategy country_name).1.length then
    .ok (strategy country_name).1 (strategy country_name).2 "success"
  else .ok (fallback_facts country_name) "Fallback System" "fallback"

/-- The `/generate-facts` route as deployed: the handler applied to
`try_creative_generation`, the only strategy the source invokes there. -/
def generate_facts (rawCountry : String) : GenResp :=
  generate_facts_handler try_creative_generation rawCountry

/-- The `capitals` dict of `try_simple_chat` (lines 338-344). -/
def capitals : List (String × String) := [
  ("japan", "Tokyo"), ("france", "Paris"), ("germany", "Berlin"), ("italy", "Rome"),
  ("spain", "Madrid"), ("brazil", "Brasília"), ("canada", "Ottawa"),
  ("australia", "Canberra"), ("india", "New Delhi"), ("egypt", "Cairo"),
  ("china", "Beijing"), ("russia", "Moscow"), ("uk", "London"), ("usa", "Washington D.C."),
  ("mexico", "Mexico City"), ("argentina", "Buenos Aires")]

/-- The `languages` dict of `try_simple_chat` (lines 353-358). -/
def languages : List (String × String) := [
  ("japan", "Japanese"), ("france", "French"), ("germany", "German"),
  ("italy", "Italian"), ("spain", "Spanish"), ("brazil", "Portuguese"),
  ("china", "Mandarin Chinese"), ("russia", "Russian"), ("egypt", "Arabic"),
  ("india", "Hindi and English"), ("australia", "English"), ("canada", "English and French")]

/-- The `currencies` dict of `try_simple_chat` (lines 364-367). -/
def currencies : List (String × String) := [
  ("japan", "Japanese Yen"), ("france", "Euro"), ("germany", "Euro"),
  ("italy", "Euro"), ("spain", "Euro"), ("brazil", "Brazilian Real")]

/-- The generic final response of `try_simple_chat` (line 373). -/
def generic_chat_response (country_name : String) : String :=
  "That's an interesting question about " ++ country_name ++
    "! While I don't have specific details about that right now, " ++ country_name ++
    " is a fascinating country with rich history, culture, and unique characteristics worth exploring further."

/-- Shallow embedding of `try_simple_chat` (lines 330-373).  In the
source, when a topic branch's dictionary lookup misses, control falls
past the whole if/elif chain to the final generic return; that is the
`none` branch of each match here. -/
def try_simple_chat (country_name question : String) : String × String :=
  let question_lower := pyLower question
  if strContains question_lower "capital" then
    match alookup capitals (pyLower country_name) with
    | some capital =>
      ("The capital of " ++ country_name ++ " is " ++ capital ++ ".", "Knowledge Base")
    | none => (generic_chat_response country_name, "Knowledge Base")
  else if strContains question_lower "population" then
    (country_name ++ " has a significant population that varies over time. For the most current figures, I'd recommend checking recent census data.", "Knowledge Base")
  else if strContains question_lower "language" then
    match alookup languages (pyLower country_name) with
    | some language =>
      ("The primary language spoken in " ++ country_name ++ " is " ++ language ++ ".", "Knowledge Base")
    | none => (generic_chat_response country_name, "Knowledge Base")
  else if strContains question_lower "currency" then
    match alookup currencies (pyLower country_name) with
    | some currency =>
      ("The currency used in " ++ country_name ++ " is the " ++ currency ++ ".", "Knowledge Base")
    | none => (generic_chat_response country_name, "Knowledge Base")
  else (generic_chat_response country_name, "Knowledge Base")

/-- A `/chat` response: HTTP 200 with response text, model label and
status, or an error status code with a message. -/
inductive ChatResp where
  | ok (response model_used status : String)
  | err (code : Nat) (msg : String)
deriving DecidableEq

/-- The `/chat` handler (lines 268-299), parameterized by the answer
strategy so that non-invocation on invalid input is provable for every
strategy.  The raw fields are `data.get(..., '')`, so missing fields
arrive as empty strings; `if facts:` on the returned string is Python
truthiness, i.e. non-emptiness. -/
def chat_handler (strategy : String → String → String × String)
    (rawCountry rawQuestion : String) : ChatResp :=
  let country_name := pyStrip rawCountry
  let question := pyStrip rawQuestion
  if country_name = "" ∨ question = "" then
    .err 400 "Country name and question are required"
  else if (strategy country_name question).1 ≠ "" then
    .ok (strategy country_name question).1 (strategy country_name question).2 "success"
  else
    .ok ("I'd be happy to help you learn more about " ++ country_name ++ "! Unfortunately, I'm having trouble accessing detailed information right now. You might want to try asking about specific aspects like culture, history, geography, or famous landmarks.")
      "Fallback System" "fallback"

/-- The `/chat` route as deployed: the handler applied to
`try_simple_chat`, the only strategy the source invokes there. -/
def chat (rawCountry rawQuestion : String) : ChatResp :=
  chat_handler try_simple_chat rawCountry rawQuestion

/-- Modelled from the claim C7 as stated (spec section 4.1 step 3 read as
"discard only fragments shorter than 20 characters after trimming", i.e.
keep trimmed fragments of length at least 20): a spec-side rendition of
the sentence-split fallback, to be compared with the source's
`sentence_step`, which keeps only fragments strictly longer than 20. -/
def sentence_step_claimed (text : String) : List Fact :=
  let sentences :=
    (((splitSentences text.toList).map (fun l => String.mk (stripChars l))).filter
      (fun s => 20 ≤ s.length))
  (sentences.take 3).enum.map
    (fun p =>
      { title := "Interesting Fact " ++ toString (p.1 + 1),
        content := if endsWithPeriod p.2 then p.2 else p.2 ++ "." })

/-- The sentence-split fallback as claim C7 reads after amending its
threshold: keep exactly the fragments whose trimmed length is strictly
greater than 20 characters (discard those of trimmed length at most 20);
otherwise word for word the claim's description. -/
def sentence_step_amended (text : String) : List Fact :=
  let sentences :=
    (((splitSentences text.toList).map (fun l => String.mk (stripChars l))).filter
      (fun s => 20 < s.length))
  (sentences.take 3).enum.map
    (fun p =>
      { title := "Interesting Fact " ++ toString (p.1 + 1),
        content := if endsWithPeriod p.2 then p.2 else p.2 ++ "." })

/-- C2's input text, spec section 8 property 2. -/
def c2_input : String :=
  "1. Title One: Content one. 2. Title Two: Content two. 3. Title Three: Content three."

/-- C7's counterexample text: a single fragment of exactly 20 characters
after trimming, with no numbered or bulleted structure. -/
def c7_text : String := "abcdefghijklmnopqrst"

theorem pad_to_three_length (c : String) (fs : List Fact) :
    (pad_to_three c fs).length = 3 := by
  simp only [pad_to_three, List.length_take, List.length_append, List.length_replicate]
  omega

theorem alookup_mem {α : Type} (l : List (String × α)) (k : String) (v : α)
    (h : alookup l k = some v) : v ∈ l.map Prod.snd := by
  induction l with
  | nil => simp [alookup] at h
  | cons p rest ih =>
    rw [alookup] at h
    by_cases hk : p.1 = k
    · rw [if_pos hk] at h
      injection h with h
      simp [h]
    · rw [if_neg hk] at h
      simp [ih h]

theorem curated_entries_length :
    ∀ fs ∈ curated_country_facts.map Prod.snd, fs.length = 3 := by decide

theorem generate_intelligent_facts_length (c : String) :
    (generate_intelligent_facts c).1.length = 3 := by
  unfold generate_intelligent_facts
  cases h : alookup curated_country_facts (pyLower c) with
  | none => rfl
  | some fs => exact curated_entries_length fs (alookup_mem _ _ _ h)

theorem generate_intelligent_facts_label (c : String) :
    (generate_intelligent_facts c).2 = "Enhanced Knowledge Base" := by
  unfold generate_intelligent_facts
  cases alookup curated_country_facts (pyLower c) <;> rfl

theorem append_ne_empty_right (a b : String) (h : b ≠ "") : a ++ b ≠ "" := by
  intro hab
  apply h
  apply String.ext
  have hd := congrArg String.data hab
  rw [String.data_append] at hd
  exact (List.append_eq_nil.mp hd).2

theorem generic_chat_response_ne_empty (c : String) : generic_chat_response c ≠ "" := by
  unfold generic_chat_response
  exact append_ne_empty_right _ _ (by decide)

theorem try_simple_chat_total (c q : String) :
    (try_simple_chat c q).2 = "Knowledge Base" ∧ (try_simple_chat c q).1 ≠ "" := by
  unfold try_simple_chat
  dsimp only
  split_ifs
  · cases alookup capitals (pyLower c) with
    | none => exact ⟨rfl, generic_chat_response_ne_empty c⟩
    | some capital => exact ⟨rfl, append_ne_empty_right _ _ (by decide)⟩
  · exact ⟨rfl, append_ne_empty_right _ _ (by decide)⟩
  · cases alookup languages (pyLower c) with
    | none => exact ⟨rfl, generic_chat_response_ne_empty c⟩
    | some language => exact ⟨rfl, append_ne_empty_right _ _ (by decide)⟩
  · cases alookup currencies (pyLower c) with
    | none => exact ⟨rfl, generic_chat_response_ne_empty c⟩
    | some currency => exact ⟨rfl, append_ne_empty_right _ _ (by decide)⟩
  · exact ⟨rfl, generic_chat_response_ne_empty c⟩

/-- C1: the claim fails as stated.  On the non-empty input `"1. : \n"`
the numbered pattern matches with a whitespace-only title capture and a
newline-only content capture, so the first returned fact has empty title
and empty content after trimming. -/
theorem c1_counterexample :
    ("1. : \n" : String) ≠ "" ∧
    ¬ (∀ f ∈ parse_facts_from_response "1. : \n" "France",
        pyStrip f.title ≠ "" ∧ pyStrip f.content ≠ "") := by
  exact ⟨by decide, by decide⟩

/-- C1 amended: for every non-empty input text and every country name,
`parse_facts_from_response` returns exactly 3 facts (their titles and
contents may be empty after trimming). -/
theorem c1_facts_count (text country_name : String) (_h : text ≠ "") :
    (parse_facts_from_response text country_name).length = 3 := by
  unfold parse_facts_from_response
  exact pad_to_three_length _ _

theorem c1_witness :
    ("France is lovely" : String) ≠ "" ∧
    (parse_facts_from_response "France is lovely" "France").length = 3 :=
  ⟨by decide, c1_facts_count "France is lovely" "France" (by decide)⟩

/-- C2: evaluation of the code at the claim's input.  The lazy title
group `([^:\n]+?)` of the numbered pattern captures a single character,
so the code returns titles "T", "T", "T" with the rest of each title
swallowed into the content — not the titles "Title One", "Title Two",
"Title Three" the claim (and the prompt format the source itself
requests at line 94) expects. -/
theorem c2_divergence :
    parse_facts_from_response c2_input "France" =
      [⟨"T", "itle One: Content one."⟩, ⟨"T", "itle Two: Content two."⟩,
       ⟨"T", "itle Three: Content three."⟩] ∧
    (parse_facts_from_response c2_input "France").map Fact.title ≠
      ["Title One", "Title Two", "Title Three"] := by
  exact ⟨by decide, by decide⟩

/-- C3: every `/generate-facts` request whose country is non-blank after
trimming gets a success response with exactly 3 facts, a non-empty model
label, and status "success" or "fallback".  The deployed route invokes
only the built-in knowledge base (`try_creative_generation`), so no
remote or local backend can affect the result. -/
theorem c3_generate_facts_ok (rawCountry : String) (h : pyStrip rawCountry ≠ "") :
    match generate_facts rawCountry with
    | .ok facts model_used status =>
        facts.length = 3 ∧ model_used ≠ "" ∧ (status = "success" ∨ status = "fallback")
    | .err _ _ => False := by
  unfold generate_facts generate_facts_handler try_creative_generation
  rw [if_neg h, if_pos (by rw [generate_intelligent_facts_length]; omega)]
  refine ⟨generate_intelligent_facts_length _, ?_, Or.inl rfl⟩
  rw [generate_intelligent_facts_label]
  decide

theorem c3_witness :
    pyStrip "Japan" ≠ "" ∧
    (match generate_facts "Japan" with
     | .ok facts model_used status =>
         facts.length = 3 ∧ model_used ≠ "" ∧ (status = "success" ∨ status = "fallback")
     | .err _ _ => False) :=
  ⟨by decide, c3_generate_facts_ok "Japan" (by decide)⟩

/-- C4: a `/generate-facts` request whose country is blank after trimming
(a missing field arrives as `""`), and a `/chat` request with either
field blank, are rejected with 400 and the handler's answer is the same
whatever strategy is plugged in — so no generation or answer strategy is
invoked. -/
theorem c4_validation_rejects (strat : String → List Fact × String)
    (chatStrat : String → String → String × String) (c c2 q2 : String)
    (hc : pyStrip c = "") (hcq : pyStrip c2 = "" ∨ pyStrip q2 = "") :
    generate_facts_handler strat c = .err 400 "Country name is required" ∧
    chat_handler chatStrat c2 q2 = .err 400 "Country name and question are required" := by
  constructor
  · unfold generate_facts_handler
    rw [if_pos hc]
  · unfold chat_handler
    rw [if_pos hcq]

theorem c4_witness :
    pyStrip "   " = "" ∧ (pyStrip "" = "" ∨ pyStrip "What is the capital?" = "") ∧
    generate_facts_handler try_creative_generation "   " =
      .err 400 "Country name is required" ∧
    chat_handler try_simple_chat "" "What is the capital?" =
      .err 400 "Country name and question are required" :=
  ⟨by decide, Or.inl (by decide),
    (c4_validation_rejects try_creative_generation try_simple_chat
      "   " "" "What is the capital?" (by decide) (Or.inl (by decide))).1,
    (c4_validation_rejects try_creative_generation try_simple_chat
      "   " "" "What is the capital?" (by decide) (Or.inl (by decide))).2⟩

/-- C5: `generate_intelligent_facts` always carries the label "Enhanced
Knowledge Base" and always returns 3 facts; when the lower-cased name is
a curated key it returns that entry verbatim, otherwise the three
synthesized facts titled "Geographic Uniqueness", "Cultural Heritage",
"Global Contribution", each of whose contents contains the country name
in its original casing.  Being a total function, it never fails. -/
theorem c5_intelligent_facts (name : String) :
    (generate_intelligent_facts name).2 = "Enhanced Knowledge Base" ∧
    (generate_intelligent_facts name).1.length = 3 ∧
    (match alookup curated_country_facts (pyLower name) with
     | some fs => (generate_intelligent_facts name).1 = fs
     | none => (generate_intelligent_facts name).1 = generic_patterns name) ∧
    (generic_patterns name).map Fact.title =
      ["Geographic Uniqueness", "Cultural Heritage", "Global Contribution"] ∧
    ∀ f ∈ generic_patterns name, ∃ pre post : String, f.content = pre ++ (name ++ post) := by
  refine ⟨generate_intelligent_facts_label name, generate_intelligent_facts_length name,
    ?_, by simp [generic_patterns], ?_⟩
  · cases h : alookup curated_country_facts (pyLower name) <;>
      simp [generate_intelligent_facts, h]
  · intro f hf
    simp only [generic_patterns, List.mem_cons, List.not_mem_nil, or_false] at hf
    rcases hf with rfl | rfl | rfl
    · exact ⟨"", _, (String.empty_append _).symm⟩
    · exact ⟨"The people of ", _, (String.append_assoc _ _ _)⟩
    · exact ⟨"", _, (String.empty_append _).symm⟩

/-- C6: whenever the lower-cased question contains "capital",
`try_simple_chat` answers from the capitals dictionary when the
lower-cased country is a key, and otherwise falls through to the generic
encouragement sentence; both carry the label "Knowledge Base", never an
error.  In particular ("Japan", "What is the capital?") yields "The
capital of Japan is Tokyo.". -/
theorem c6_capital_chat (country question : String)
    (h : strContains (pyLower question) "capital" = true) :
    (match alookup capitals (pyLower country) with
     | some capital =>
         try_simple_chat country question =
           ("The capital of " ++ country ++ " is " ++ capital ++ ".", "Knowledge Base")
     | none =>
         try_simple_chat country question =
           (generic_chat_response country, "Knowledge Base")) ∧
    try_simple_chat "Japan" "What is the capital?" =
      ("The capital of Japan is Tokyo.", "Knowledge Base") := by
  constructor
  · cases hs : alookup capitals (pyLower country) <;> simp [try_simple_chat, h, hs]
  · decide

theorem c6_witness :
    strContains (pyLower "What is the capital?") "capital" = true ∧
    ((match alookup capitals (pyLower "Wakanda") with
      | some capital =>
          try_simple_chat "Wakanda" "What is the capital?" =
            ("The capital of " ++ "Wakanda" ++ " is " ++ capital ++ ".", "Knowledge Base")
      | none =>
          try_simple_chat "Wakanda" "What is the capital?" =
            (generic_chat_response "Wakanda", "Knowledge Base")) ∧
     try_simple_chat "Japan" "What is the capital?" =
       ("The capital of Japan is Tokyo.", "Knowledge Base")) :=
  ⟨by decide, c6_capital_chat "Wakanda" "What is the capital?" (by decide)⟩

/-- C7: the claim fails as stated.  On a text whose single fragment has
trimmed length exactly 20 and which no list pattern matches, the code
discards the fragment (its test is strictly greater than 20), while the
claim's reading ("discarding only fragments shorter than 20") would keep
it. -/
theorem c7_counterexample :
    numberedMatches c7_text = [] ∧ bulletMatches c7_text = [] ∧
    parse_facts_from_response c7_text "France" ≠
      pad_to_three "France" (sentence_step_claimed c7_text) := by
  exact ⟨by decide, by decide, by decide⟩

/-- C7 amended: when neither list pattern matches, the result is the
sentence-split fallback (split on runs of '.', '!', '?', keep exactly the
fragments whose trimmed length is strictly greater than 20, take up to
the first 3, title them "Interesting Fact n" 1-indexed, ensure a trailing
period) followed by padding. -/
theorem c7_sentence_fallback (text country_name : String)
    (h1 : numberedMatches text = []) (h2 : bulletMatches text = []) :
    parse_facts_from_response text country_name =
      pad_to_three country_name (sentence_step_amended text) := by
  unfold parse_facts_from_response
  rw [h1, h2]
  rfl

theorem c7_witness :
    numberedMatches "France is a wonderful country in Europe" = [] ∧
    bulletMatches "France is a wonderful country in Europe" = [] ∧
    parse_facts_from_response "France is a wonderful country in Europe" "France" =
      pad_to_three "France"
        (sentence_step_amended "France is a wonderful country in Europe") :=
  ⟨by decide, by decide,
    c7_sentence_fallback "France is a wonderful country in Europe" "France"
      (by decide) (by decide)⟩

/-- C8: the extraction steps are strictly alternative.  For every text
the parse result equals padding applied to: the numbered step's own
matches when the numbered pattern has at least one match; otherwise the
bullet step's own matches when the bullet pattern has at least one;
otherwise the sentence fallback.  No step's output feeds another step. -/
theorem c8_steps_alternative (text country_name : String) :
    parse_facts_from_response text country_name =
      pad_to_three country_name
        (match numberedMatches text, bulletMatches text with
         | _ :: _, _ => numbered_step text
         | [], _ :: _ => bullet_step text
         | [], [] => sentence_step text) := by
  unfold parse_facts_from_response
  cases numberedMatches text <;> cases bulletMatches text <;> rfl

/-- C9: curated lookup is case-insensitive: two names equal after
lower-casing whose lower-casing is a curated key get the same facts and
the same label. -/
theorem c9_case_insensitive (n1 n2 : String) (h : pyLower n1 = pyLower n2)
    (hk : (alookup curated_country_facts (pyLower n1)).isSome = true) :
    generate_intelligent_facts n1 = generate_intelligent_facts n2 := by
  unfold generate_intelligent_facts
  rw [h] at hk ⊢
  obtain ⟨fs, hfs⟩ := Option.isSome_iff_exists.mp hk
  rw [hfs]

theorem c9_witness :
    pyLower "Japan" = pyLower "jAPAN" ∧
    (alookup curated_country_facts (pyLower "Japan")).isSome = true ∧
    generate_intelligent_facts "Japan" = generate_intelligent_facts "jAPAN" :=
  ⟨by decide, by decide,
    c9_case_insensitive "Japan" "jAPAN" (by decide) (by decide)⟩

/-- C10: `try_simple_chat` is total, always labels its answer "Knowledge
Base" and never returns an empty answer; hence every `/chat` request with
non-blank country and question (the pure model raises no exception) gets
status "success" carrying that answer, and the handler's "Fallback
System" branch is unreachable. -/
theorem c10_chat_success (country question rawC rawQ : String) :
    (try_simple_chat country question).2 = "Knowledge Base" ∧
    (try_simple_chat country question).1 ≠ "" ∧
    (pyStrip rawC ≠ "" → pyStrip rawQ ≠ "" →
      chat rawC rawQ =
        .ok (try_simple_chat (pyStrip rawC) (pyStrip rawQ)).1
          (try_simple_chat (pyStrip rawC) (pyStrip rawQ)).2 "success") := by
  refine ⟨(try_simple_chat_total country question).1,
    (try_simple_chat_total country question).2, ?_⟩
  intro h1 h2
  unfold chat chat_handler
  rw [if_neg (by push_neg; exact ⟨h1, h2⟩)]
  rw [if_pos (try_simple_chat_total _ _).2]

theorem c10_witness :
    pyStrip " Japan " ≠ "" ∧ pyStrip " What is the capital? " ≠ "" ∧
    chat " Japan " " What is the capital? " =
      .ok (try_simple_chat (pyStrip " Japan ") (pyStrip " What is the capital? ")).1
        (try_simple_chat (pyStrip " Japan ") (pyStrip " What is the capital? ")).2
        "success" :=
  ⟨by decide, by decide,
    (c10_chat_success "x" "y" " Japan " " What is the capital? ").2.2
      (by decide) (by decide)⟩

end CountryFacts
